import Mathlib

/-!
Verification of the evicted-pod-reaper controller.

The Go sources are shallowly embedded below:
* `internal/controller/pod_controller.go` — `isPodEvicted`, `shouldPreservePod`,
  `hasExceededTTL`, `calculateRequeueTime` and the `Reconcile` driver;
* `internal/metrics/metrics.go` — the two namespace-labelled counters;
* `cmd/manager/main.go` — `parseTTL` and `parseNamespaces`.

Time is modelled as `Int` nanoseconds since an arbitrary epoch: `time.Time`
values become `Int` instants, `time.Duration` values become `Int` durations,
and `time.Since(t)` at wall-clock instant `now` becomes `now - t`.
`time.Second` is `nsPerSecond` nanoseconds, so the Go expression
`time.Duration(r.TTLToDelete) * time.Second` becomes `ttl * nsPerSecond`.
-/

namespace Reaper

/-- One nanosecond-count per second: Go's `time.Second`. -/
def nsPerSecond : Int := 1000000000

/-- Pod lifecycle phase (`corev1.PodPhase`). -/
inductive PodPhase where
  | Pending
  | Running
  | Succeeded
  | Failed
  | Unknown
deriving DecidableEq, Repr

/-- The fields of `corev1.PodStatus` read by the controller: phase, free-text
reason, and the optional start time (`nil` pointer modelled as `none`). -/
structure PodStatus where
  phase : PodPhase
  reason : String
  startTime : Option Int
deriving DecidableEq, Repr

/-- The fields of a `corev1.Pod` read by the controller.  The Go annotations
map may be `nil`, modelled as `none`; a non-nil map is an association list
(Go maps have no duplicate keys, and the controller only ever looks one key
up). -/
structure Pod where
  nspace : String
  name : String
  annots : Option (List (String × String))
  status : PodStatus
deriving DecidableEq, Repr

/-- Go map indexing `m[k]` for a `map[string]string`: the stored value when
the key is present, and the zero value `""` otherwise. -/
def lookupAnnot (m : List (String × String)) (k : String) : String :=
  match m.find? (fun p => p.1 == k) with
  | some p => p.2
  | none => ""

/-- The constant `preserveAnnotation` from `pod_controller.go`. -/
def preserveAnnotKey : String := "pod-reaper.kyos.com/preserve"

/-- `isPodEvicted`: phase is `Failed` and reason is exactly `"Evicted"`. -/
def isPodEvicted (pod : Pod) : Bool :=
  pod.status.phase == PodPhase.Failed && pod.status.reason == "Evicted"

/-- `shouldPreservePod`: the annotations map is non-nil and maps the preserve
key to exactly `"true"`. -/
def shouldPreservePod (pod : Pod) : Bool :=
  match pod.annots with
  | none => false
  | some m => lookupAnnot m preserveAnnotKey == "true"

/-- `hasExceededTTL`: a pod with no start time counts as exceeded; otherwise
the pod's age must be strictly greater than the TTL duration.
`ttl` is `r.TTLToDelete` (seconds), `now` the current instant. -/
def hasExceededTTL (ttl now : Int) (pod : Pod) : Bool :=
  match pod.status.startTime with
  | none => true
  | some t => decide (now - t > ttl * nsPerSecond)

/-- `calculateRequeueTime`: zero when there is no start time or the age is at
least the TTL duration, and the remaining time otherwise. -/
def calculateRequeueTime (ttl now : Int) (pod : Pod) : Int :=
  match pod.status.startTime with
  | none => 0
  | some t =>
    let podAge := now - t
    let ttlDuration := ttl * nsPerSecond
    if podAge ≥ ttlDuration then 0 else ttlDuration - podAge

/-- The decision the spec's Decision Engine returns; the delay of
`RequeueAfter` is a duration in nanoseconds. -/
inductive Decision where
  | Ignore
  | Preserve
  | Delete
  | RequeueAfter (d : Int)
deriving DecidableEq, Repr

/-- The decision logic of `Reconcile` (its branch structure on a fetched pod),
as the spec's pure `Evaluate(snapshot, ttl, now)` function. -/
def Evaluate (ttl now : Int) (pod : Pod) : Decision :=
  if !isPodEvicted pod then Decision.Ignore
  else if shouldPreservePod pod then Decision.Preserve
  else if !hasExceededTTL ttl now pod then
    Decision.RequeueAfter (calculateRequeueTime ttl now pod)
  else Decision.Delete

/-- The metrics sink of `metrics.go`: two counter vectors labelled by
namespace, modelled as total maps from namespace to count. -/
structure PodMetrics where
  deletedTotal : String → Nat
  skippedTotal : String → Nat

/-- `IncDeleted`: bump the deleted counter of one namespace. -/
def IncDeleted (m : PodMetrics) (ns : String) : PodMetrics :=
  { m with deletedTotal := fun n => if n = ns then m.deletedTotal n + 1 else m.deletedTotal n }

/-- `IncSkipped`: bump the skipped counter of one namespace. -/
def IncSkipped (m : PodMetrics) (ns : String) : PodMetrics :=
  { m with skippedTotal := fun n => if n = ns then m.skippedTotal n + 1 else m.skippedTotal n }

/-- Outcome of the driver's fetch `r.Get(ctx, req.NamespacedName, pod)`:
success, a not-found error, or any other error (carried as a string). -/
inductive FetchOutcome where
  | ok (pod : Pod)
  | notFound
  | err (e : String)
deriving DecidableEq, Repr

/-- What `Reconcile` produces: the `ctrl.Result` (the code only ever sets its
`RequeueAfter` field, zero meaning no requeue), the returned error, the
metrics state after the call, and whether a delete request was issued. -/
structure ReconcileOutcome where
  requeueAfter : Int
  error : Option String
  metrics : PodMetrics
  deleteIssued : Bool

/-- The `Reconcile` driver.  `fetch` is the outcome of the store fetch for
the request's key, and `delErr` the outcome the store would give a delete
request (`none` = success) — consulted only if the delete path is reached. -/
def Reconcile (ttl now : Int) (fetch : FetchOutcome) (delErr : Option String)
    (m : PodMetrics) : ReconcileOutcome :=
  match fetch with
  | FetchOutcome.notFound => ⟨0, none, m, false⟩
  | FetchOutcome.err e => ⟨0, some e, m, false⟩
  | FetchOutcome.ok pod =>
    if !isPodEvicted pod then ⟨0, none, m, false⟩
    else if shouldPreservePod pod then ⟨0, none, IncSkipped m pod.nspace, false⟩
    else if !hasExceededTTL ttl now pod then
      ⟨calculateRequeueTime ttl now pod, none, m, false⟩
    else
      match delErr with
      | some e => ⟨0, some e, m, true⟩
      | none => ⟨0, none, IncDeleted m pod.nspace, true⟩

/-- Go's `strconv.Atoi`: an optional sign followed by at least one decimal
digit, the whole string consumed, with the 64-bit `int` range check (out of
range is an error, which `parseTTL` treats like any parse failure). -/
def goAtoi (s : String) : Option Int :=
  let cs := s.toList
  let signed : Bool × List Char :=
    match cs with
    | '-' :: rest => (true, rest)
    | '+' :: rest => (false, rest)
    | _ => (false, cs)
  let ds := signed.2
  if ds.isEmpty || !ds.all Char.isDigit then none
  else
    let mag : Int := Int.ofNat (ds.foldl (fun a c => a * 10 + (c.toNat - 48)) 0)
    let v : Int := if signed.1 then -mag else mag
    if -(2 ^ 63) ≤ v ∧ v < 2 ^ 63 then some v else none

/-- `parseTTL` from `main.go`: empty input or an `Atoi` failure falls back to
the default 300 seconds. -/
def parseTTL (env : String) : Int :=
  if env = "" then 300
  else
    match goAtoi env with
    | some ttl => ttl
    | none => 300

/-- `parseNamespaces` from `main.go`: empty input defaults to `["default"]`;
otherwise split on commas and trim whitespace from each entry. -/
def parseNamespaces (env : String) : List String :=
  if env = "" then ["default"]
  else (env.splitOn ",").map (fun s => s.trim)

/-- Spec-side reading of the preservation rule: the vendor-scoped preserve
key is present in the annotations map with value exactly `"true"`. -/
def hasPreserveTrue (pod : Pod) : Bool :=
  match pod.annots with
  | none => false
  | some m =>
    match m.find? (fun p => p.1 == preserveAnnotKey) with
    | some p => p.2 == "true"
    | none => false

/-- The value the controller reads for the preserve key: Go's
`pod.Annotations[preserveAnnotation]`, which is `""` when the map is `nil`
or the key absent. -/
def preserveValue (pod : Pod) : String :=
  match pod.annots with
  | none => ""
  | some m => lookupAnnot m preserveAnnotKey

/- ------------------------------------------------------------------ -/
/- Helper lemmas shared by the claim theorems.                         -/
/- ------------------------------------------------------------------ -/

theorem shouldPreserve_eq_hasPreserveTrue (pod : Pod) :
    shouldPreservePod pod = hasPreserveTrue pod := by
  unfold shouldPreservePod hasPreserveTrue lookupAnnot
  cases pod.annots with
  | none => rfl
  | some m =>
    cases h : m.find? (fun p => p.1 == preserveAnnotKey) with
    | none => simp [h]
    | some p => simp [h]

theorem evaluate_of_not_evicted (ttl now : Int) (pod : Pod)
    (h : isPodEvicted pod = false) : Evaluate ttl now pod = Decision.Ignore := by
  simp [Evaluate, h]

theorem evaluate_ttl_branch (ttl now : Int) (pod : Pod)
    (hev : isPodEvicted pod = true) (hpr : shouldPreservePod pod = false) :
    Evaluate ttl now pod =
      if hasExceededTTL ttl now pod then Decision.Delete
      else Decision.RequeueAfter (calculateRequeueTime ttl now pod) := by
  cases h : hasExceededTTL ttl now pod <;> simp [Evaluate, hev, hpr, h]

theorem hasExceededTTL_some (ttl now t : Int) (pod : Pod)
    (hst : pod.status.startTime = some t) :
    hasExceededTTL ttl now pod = decide (ttl * nsPerSecond < now - t) := by
  simp [hasExceededTTL, hst]

theorem calculateRequeueTime_some_le (ttl now t : Int) (pod : Pod)
    (hst : pod.status.startTime = some t) (h : now - t ≤ ttl * nsPerSecond) :
    calculateRequeueTime ttl now pod = ttl * nsPerSecond - (now - t) := by
  simp only [calculateRequeueTime, hst]
  split_ifs with h2
  · omega
  · rfl

theorem calculateRequeueTime_nonneg (ttl now : Int) (pod : Pod) :
    0 ≤ calculateRequeueTime ttl now pod := by
  unfold calculateRequeueTime
  cases hst : pod.status.startTime with
  | none => simp
  | some t =>
    simp only []
    split_ifs with h2
    · exact le_refl 0
    · linarith

/- ------------------------------------------------------------------ -/
/- Claim C1.                                                           -/
/- ------------------------------------------------------------------ -/

/-- C1 (counterexample): the claim says the decision is `Delete` whenever
`now - t ≥ T`, and that any returned delay is strictly positive and at most
`T`.  The code's `hasExceededTTL` uses a strict comparison `podAge >
ttlDuration`, so at `now - t = T` exactly (here `t = 0`, `now = T = 300 s`)
the decision is `RequeueAfter 0`, not `Delete` — and the delay `0` is not
strictly positive.  Moreover for a start time in the future (here `t = 15 s`,
`now = 10 s`, `T = 10 s`) the returned delay `15 s` exceeds `T = 10 s`. -/
theorem ttl_boundary_counterexample :
    Evaluate 300 (300 * nsPerSecond)
        ⟨"default", "p", none, ⟨PodPhase.Failed, "Evicted", some 0⟩⟩ =
      Decision.RequeueAfter 0 ∧
    Evaluate 300 (300 * nsPerSecond)
        ⟨"default", "p", none, ⟨PodPhase.Failed, "Evicted", some 0⟩⟩ ≠
      Decision.Delete ∧
    Evaluate 10 (10 * nsPerSecond)
        ⟨"default", "p", none, ⟨PodPhase.Failed, "Evicted", some (15 * nsPerSecond)⟩⟩ =
      Decision.RequeueAfter (15 * nsPerSecond) ∧
    ¬ (15 * nsPerSecond ≤ (10 : Int) * nsPerSecond) := by
  refine ⟨by decide, by decide, by decide, by decide⟩

/-- C1 (amended): for every evicted, non-preserved pod snapshot with recorded
start time `t`, TTL `T = ttl·s`, evaluated at `now`: if `now - t > T`
(strictly) the decision is `Delete`; otherwise the decision is
`RequeueAfter (T - (now - t))`, and the returned delay is non-negative, is
strictly positive when `now - t < T` (it is zero exactly at `now - t = T`),
and is at most `T` whenever `t ≤ now`. -/
theorem ttl_decision_strict (ttl now t : Int) (pod : Pod)
    (hev : isPodEvicted pod = true) (hpr : shouldPreservePod pod = false)
    (hst : pod.status.startTime = some t) :
    (ttl * nsPerSecond < now - t → Evaluate ttl now pod = Decision.Delete) ∧
    (now - t ≤ ttl * nsPerSecond →
      Evaluate ttl now pod =
        Decision.RequeueAfter (ttl * nsPerSecond - (now - t)) ∧
      0 ≤ ttl * nsPerSecond - (now - t) ∧
      (now - t < ttl * nsPerSecond → 0 < ttl * nsPerSecond - (now - t)) ∧
      (t ≤ now → ttl * nsPerSecond - (now - t) ≤ ttl * nsPerSecond)) := by
  have hbr := evaluate_ttl_branch ttl now pod hev hpr
  have hex := hasExceededTTL_some ttl now t pod hst
  constructor
  · intro h
    rw [hbr, hex]
    simp [h]
  · intro h
    have hexf : hasExceededTTL ttl now pod = false := by
      rw [hex]
      simpa using not_lt.mpr h
    refine ⟨?_, by linarith, fun h2 => by linarith, fun h3 => by linarith⟩
    rw [hbr, hexf, calculateRequeueTime_some_le ttl now t pod hst h]
    simp

/-- C1 (witness): the amended theorem applied to a concrete evicted pod with
start time `0`, TTL `300 s`, evaluated at `now = 100 s`. -/
theorem ttl_decision_strict_witness :
    Evaluate 300 (100 * nsPerSecond)
        ⟨"default", "p", none, ⟨PodPhase.Failed, "Evicted", some 0⟩⟩ =
      Decision.RequeueAfter (300 * nsPerSecond - (100 * nsPerSecond - 0)) :=
  ((ttl_decision_strict 300 (100 * nsPerSecond) 0
      ⟨"default", "p", none, ⟨PodPhase.Failed, "Evicted", some 0⟩⟩
      (by decide) (by decide) rfl).2 (by decide)).1

/- ------------------------------------------------------------------ -/
/- Claim C2.                                                           -/
/- ------------------------------------------------------------------ -/

/-- C2 (counterexample): the claim names the annotation key
`pod-reaper/preserve`, but the code's constant is
`pod-reaper.kyos.com/preserve`.  An evicted pod carrying the unscoped key
`pod-reaper/preserve` with value `"true"` is not preserved: its decision
proceeds to the TTL test and here is `Delete`. -/
theorem preserve_key_counterexample :
    shouldPreservePod
        ⟨"default", "p", some [("pod-reaper/preserve", "true")],
          ⟨PodPhase.Failed, "Evicted", some 0⟩⟩ = false ∧
    Evaluate 300 (10000 * nsPerSecond)
        ⟨"default", "p", some [("pod-reaper/preserve", "true")],
          ⟨PodPhase.Failed, "Evicted", some 0⟩⟩ ≠ Decision.Preserve ∧
    Evaluate 300 (10000 * nsPerSecond)
        ⟨"default", "p", some [("pod-reaper/preserve", "true")],
          ⟨PodPhase.Failed, "Evicted", some 0⟩⟩ = Decision.Delete := by
  refine ⟨by decide, by decide, by decide⟩

/-- C2 (amended): preservation is keyed on the annotation key
`pod-reaper.kyos.com/preserve`: for every pod snapshot passing the eviction
test, the `Preserve` decision is produced exactly when that key is present
with value `"true"`. -/
theorem preserve_iff_scoped_key (ttl now : Int) (pod : Pod)
    (hev : isPodEvicted pod = true) :
    Evaluate ttl now pod = Decision.Preserve ↔ hasPreserveTrue pod = true := by
  constructor
  · intro h
    by_contra hn
    have hpr : shouldPreservePod pod = false := by
      rw [shouldPreserve_eq_hasPreserveTrue]
      exact Bool.eq_false_iff.mpr hn
    rw [evaluate_ttl_branch ttl now pod hev hpr] at h
    cases hx : hasExceededTTL ttl now pod <;> simp [hx] at h
  · intro h
    have hpr : shouldPreservePod pod = true := by
      rw [shouldPreserve_eq_hasPreserveTrue]; exact h
    simp [Evaluate, hev, hpr]

/-- C2 (witness): the amended theorem applied to a concrete evicted pod
annotated `pod-reaper.kyos.com/preserve: "true"`, which is preserved. -/
theorem preserve_iff_scoped_key_witness :
    Evaluate 300 0
        ⟨"default", "p", some [("pod-reaper.kyos.com/preserve", "true")],
          ⟨PodPhase.Failed, "Evicted", some 0⟩⟩ = Decision.Preserve :=
  (preserve_iff_scoped_key 300 0
      ⟨"default", "p", some [("pod-reaper.kyos.com/preserve", "true")],
        ⟨PodPhase.Failed, "Evicted", some 0⟩⟩
      (by decide)).mpr (by decide)

/- ------------------------------------------------------------------ -/
/- Claim C3.                                                           -/
/- ------------------------------------------------------------------ -/

/-- C3: the preserve check is a literal, case-sensitive comparison against
`"true"`: for every evicted pod whose preserve-annotation value is anything
other than exactly `"true"` (including `"false"`, `"True"`, `"1"`, the empty
string, or the key or the whole map absent, both of which read as `""`),
the pod is not preserved and the decision is the TTL test's outcome. -/
theorem preserve_exact_match_only (ttl now : Int) (pod : Pod)
    (hev : isPodEvicted pod = true) (hval : preserveValue pod ≠ "true") :
    shouldPreservePod pod = false ∧
    Evaluate ttl now pod ≠ Decision.Preserve ∧
    Evaluate ttl now pod =
      (if hasExceededTTL ttl now pod then Decision.Delete
       else Decision.RequeueAfter (calculateRequeueTime ttl now pod)) := by
  have hpr : shouldPreservePod pod = false := by
    unfold shouldPreservePod
    unfold preserveValue at hval
    cases h2 : pod.annots with
    | none => rfl
    | some m =>
      rw [h2] at hval
      simpa using hval
  refine ⟨hpr, ?_, evaluate_ttl_branch ttl now pod hev hpr⟩
  rw [evaluate_ttl_branch ttl now pod hev hpr]
  cases hx : hasExceededTTL ttl now pod <;> simp [hx]

/-- C3 (witness): a concrete evicted pod annotated
`pod-reaper.kyos.com/preserve: "false"` is not preserved and, its TTL having
elapsed, is deleted. -/
theorem preserve_exact_match_only_witness :
    shouldPreservePod
        ⟨"default", "p", some [("pod-reaper.kyos.com/preserve", "false")],
          ⟨PodPhase.Failed, "Evicted", some 0⟩⟩ = false ∧
    Evaluate 300 (10000 * nsPerSecond)
        ⟨"default", "p", some [("pod-reaper.kyos.com/preserve", "false")],
          ⟨PodPhase.Failed, "Evicted", some 0⟩⟩ = Decision.Delete := by
  have h := preserve_exact_match_only 300 (10000 * nsPerSecond)
    ⟨"default", "p", some [("pod-reaper.kyos.com/preserve", "false")],
      ⟨PodPhase.Failed, "Evicted", some 0⟩⟩ (by decide) (by decide)
  exact ⟨h.1, h.2.2.trans (by decide)⟩

/- ------------------------------------------------------------------ -/
/- Claim C4.                                                           -/
/- ------------------------------------------------------------------ -/

/-- C4: for every pod whose phase is not `Failed` or whose reason is not
exactly `"Evicted"`, the decision is `Ignore`, and `Reconcile` returns no
requeue and no error, issues no delete, and leaves the metrics untouched —
regardless of annotations, start time, TTL, or the delete outcome. -/
theorem not_evicted_ignored (ttl now : Int) (pod : Pod) (delErr : Option String)
    (m : PodMetrics)
    (h : pod.status.phase ≠ PodPhase.Failed ∨ pod.status.reason ≠ "Evicted") :
    Evaluate ttl now pod = Decision.Ignore ∧
    Reconcile ttl now (FetchOutcome.ok pod) delErr m =
      ⟨0, none, m, false⟩ := by
  have hfe : isPodEvicted pod = false := by
    unfold isPodEvicted
    rcases h with h | h <;> simp [h]
  exact ⟨evaluate_of_not_evicted ttl now pod hfe, by simp [Reconcile, hfe]⟩

/-- C4 (witness): a concrete `Running` pod, with the preserve annotation set
and an expired TTL, is still ignored. -/
theorem not_evicted_ignored_witness :
    Evaluate 300 (10000 * nsPerSecond)
        ⟨"default", "p", some [("pod-reaper.kyos.com/preserve", "true")],
          ⟨PodPhase.Running, "Evicted", some 0⟩⟩ = Decision.Ignore :=
  (not_evicted_ignored 300 (10000 * nsPerSecond)
      ⟨"default", "p", some [("pod-reaper.kyos.com/preserve", "true")],
        ⟨PodPhase.Running, "Evicted", some 0⟩⟩
      none ⟨fun _ => 0, fun _ => 0⟩ (Or.inl (by decide))).1

/- ------------------------------------------------------------------ -/
/- Claim C5.                                                           -/
/- ------------------------------------------------------------------ -/

/-- C5: every evicted, non-preserved pod with no recorded start time is
deleted immediately, for every TTL and every evaluation time. -/
theorem no_start_time_deleted (ttl now : Int) (pod : Pod)
    (hev : isPodEvicted pod = true) (hpr : shouldPreservePod pod = false)
    (hst : pod.status.startTime = none) :
    Evaluate ttl now pod = Decision.Delete := by
  have hx : hasExceededTTL ttl now pod = true := by
    simp [hasExceededTTL, hst]
  rw [evaluate_ttl_branch ttl now pod hev hpr, hx]
  simp

/-- C5 (witness): a concrete evicted pod without start time is deleted even
under a negative TTL at time `0`. -/
theorem no_start_time_deleted_witness :
    Evaluate (-5) 0
        ⟨"default", "p", none, ⟨PodPhase.Failed, "Evicted", none⟩⟩ =
      Decision.Delete :=
  no_start_time_deleted (-5) 0
    ⟨"default", "p", none, ⟨PodPhase.Failed, "Evicted", none⟩⟩
    (by decide) (by decide) rfl

/- ------------------------------------------------------------------ -/
/- Claim C6.                                                           -/
/- ------------------------------------------------------------------ -/

/-- C6: on the `Delete` path (evicted, not preserved, TTL exceeded) the
driver issues the delete request, and increments the deleted counter only on
success: a delete error is propagated unchanged with the metrics untouched,
while a successful delete increments exactly the pod's namespace's deleted
counter and returns no requeue and no error. -/
theorem delete_path_metrics (ttl now : Int) (pod : Pod) (m : PodMetrics)
    (e : String)
    (hev : isPodEvicted pod = true) (hpr : shouldPreservePod pod = false)
    (hx : hasExceededTTL ttl now pod = true) :
    Reconcile ttl now (FetchOutcome.ok pod) (some e) m =
      ⟨0, some e, m, true⟩ ∧
    Reconcile ttl now (FetchOutcome.ok pod) none m =
      ⟨0, none, IncDeleted m pod.nspace, true⟩ ∧
    (Reconcile ttl now (FetchOutcome.ok pod) (some e) m).metrics.deletedTotal
        pod.nspace = m.deletedTotal pod.nspace ∧
    (Reconcile ttl now (FetchOutcome.ok pod) none m).metrics.deletedTotal
        pod.nspace = m.deletedTotal pod.nspace + 1 := by
  have h1 : Reconcile ttl now (FetchOutcome.ok pod) (some e) m =
      ⟨0, some e, m, true⟩ := by
    simp [Reconcile, hev, hpr, hx]
  have h2 : Reconcile ttl now (FetchOutcome.ok pod) none m =
      ⟨0, none, IncDeleted m pod.nspace, true⟩ := by
    simp [Reconcile, hev, hpr, hx]
  refine ⟨h1, h2, by rw [h1], by rw [h2]; simp [IncDeleted]⟩

/-- C6 (witness): the theorem applied to a concrete expired evicted pod with
zeroed counters and the delete error `"boom"`: the error comes back unchanged
and the metrics value is the input value. -/
theorem delete_path_metrics_witness :
    Reconcile 300 (10000 * nsPerSecond)
        (FetchOutcome.ok
          ⟨"default", "p", none, ⟨PodPhase.Failed, "Evicted", some 0⟩⟩)
        (some "boom") ⟨fun _ => 0, fun _ => 0⟩ =
      ⟨0, some "boom", ⟨fun _ => 0, fun _ => 0⟩, true⟩ :=
  (delete_path_metrics 300 (10000 * nsPerSecond)
      ⟨"default", "p", none, ⟨PodPhase.Failed, "Evicted", some 0⟩⟩
      ⟨fun _ => 0, fun _ => 0⟩ "boom" (by decide) (by decide) (by decide)).1

/- ------------------------------------------------------------------ -/
/- Claim C7.                                                           -/
/- ------------------------------------------------------------------ -/

/-- C7: a not-found fetch yields no requeue, no error, no delete and no
counter change; any other fetch error is propagated unchanged, with no
side effect. -/
theorem fetch_error_handling (ttl now : Int) (delErr : Option String)
    (m : PodMetrics) (e : String) :
    Reconcile ttl now FetchOutcome.notFound delErr m = ⟨0, none, m, false⟩ ∧
    Reconcile ttl now (FetchOutcome.err e) delErr m =
      ⟨0, some e, m, false⟩ :=
  ⟨rfl, rfl⟩

/- ------------------------------------------------------------------ -/
/- Claim C8.                                                           -/
/- ------------------------------------------------------------------ -/

/-- C8: on the `Preserve` path the driver increments the skipped counter for
exactly the pod's namespace, issues no delete, and returns no requeue and no
error; skipped counters of other namespaces and all deleted counters are
unchanged. -/
theorem preserve_path_metrics (ttl now : Int) (pod : Pod)
    (delErr : Option String) (m : PodMetrics)
    (hev : isPodEvicted pod = true) (hpr : shouldPreservePod pod = true) :
    Reconcile ttl now (FetchOutcome.ok pod) delErr m =
      ⟨0, none, IncSkipped m pod.nspace, false⟩ ∧
    (Reconcile ttl now (FetchOutcome.ok pod) delErr m).metrics.skippedTotal
        pod.nspace = m.skippedTotal pod.nspace + 1 ∧
    (∀ n, n ≠ pod.nspace →
      (Reconcile ttl now (FetchOutcome.ok pod) delErr m).metrics.skippedTotal
        n = m.skippedTotal n) ∧
    (∀ n,
      (Reconcile ttl now (FetchOutcome.ok pod) delErr m).metrics.deletedTotal
        n = m.deletedTotal n) := by
  have h1 : Reconcile ttl now (FetchOutcome.ok pod) delErr m =
      ⟨0, none, IncSkipped m pod.nspace, false⟩ := by
    simp [Reconcile, hev, hpr]
  refine ⟨h1, by rw [h1]; simp [IncSkipped],
    fun n hn => by rw [h1]; simp [IncSkipped, hn],
    fun n => by rw [h1]; simp [IncSkipped]⟩

/-- C8 (witness): the theorem applied to a concrete preserved evicted pod in
namespace `"prod"` with zeroed counters: the skipped counter of `"prod"`
becomes `1` while the skipped counter of `"default"` stays `0`. -/
theorem preserve_path_metrics_witness :
    (Reconcile 300 0
        (FetchOutcome.ok
          ⟨"prod", "p", some [("pod-reaper.kyos.com/preserve", "true")],
            ⟨PodPhase.Failed, "Evicted", some 0⟩⟩)
        none ⟨fun _ => 0, fun _ => 0⟩).metrics.skippedTotal "prod" = 0 + 1 ∧
    (Reconcile 300 0
        (FetchOutcome.ok
          ⟨"prod", "p", some [("pod-reaper.kyos.com/preserve", "true")],
            ⟨PodPhase.Failed, "Evicted", some 0⟩⟩)
        none ⟨fun _ => 0, fun _ => 0⟩).metrics.skippedTotal "default" = 0 := by
  have h := preserve_path_metrics 300 0
    ⟨"prod", "p", some [("pod-reaper.kyos.com/preserve", "true")],
      ⟨PodPhase.Failed, "Evicted", some 0⟩⟩
    none ⟨fun _ => 0, fun _ => 0⟩ (by decide) (by decide)
  exact ⟨h.2.1, h.2.2.1 "default" (by decide)⟩

/- ------------------------------------------------------------------ -/
/- Claim C9.                                                           -/
/- ------------------------------------------------------------------ -/

/-- C9: configuration parsing never fails: for every TTL input string the
parsed TTL is the string's integer value when `Atoi` accepts it and the
default `300` otherwise (empty input included, since `Atoi` rejects `""`);
and the empty namespace-scope input yields exactly `["default"]`. -/
theorem config_parse_total (s : String) :
    (∀ n, goAtoi s = some n → parseTTL s = n) ∧
    (goAtoi s = none → parseTTL s = 300) ∧
    parseNamespaces "" = ["default"] := by
  have hempty : goAtoi "" = none := rfl
  refine ⟨?_, ?_, rfl⟩
  · intro n h
    unfold parseTTL
    split_ifs with hs
    · rw [hs, hempty] at h
      exact Option.noConfusion h
    · rw [h]
  · intro h
    unfold parseTTL
    split_ifs with hs
    · rfl
    · rw [h]

/-- C9 (witness): the theorem applied to the concrete inputs `"42"` (a valid
integer), `"oops"` (non-numeric), and the empty namespace scope. -/
theorem config_parse_total_witness :
    parseTTL "42" = 42 ∧ parseTTL "oops" = 300 ∧
    parseNamespaces "" = ["default"] :=
  ⟨(config_parse_total "42").1 42 (by decide),
   (config_parse_total "oops").2.1 (by decide),
   (config_parse_total "").2.2⟩

/- ------------------------------------------------------------------ -/
/- Claim C10.                                                          -/
/- ------------------------------------------------------------------ -/

/-- C10: for every pod (any start time, also one in the future, or none) and
every TTL (also zero or negative), `calculateRequeueTime` is non-negative:
zero when the start time is absent or the age is at least the TTL duration,
and the TTL duration minus the age otherwise; hence `Reconcile` never
returns a negative requeue delay. -/
theorem requeue_time_nonneg (ttl now : Int) (pod : Pod) :
    0 ≤ calculateRequeueTime ttl now pod ∧
    (pod.status.startTime = none → calculateRequeueTime ttl now pod = 0) ∧
    (∀ t, pod.status.startTime = some t →
      (ttl * nsPerSecond ≤ now - t → calculateRequeueTime ttl now pod = 0) ∧
      (now - t < ttl * nsPerSecond →
        calculateRequeueTime ttl now pod = ttl * nsPerSecond - (now - t))) ∧
    (∀ fetch delErr m,
      0 ≤ (Reconcile ttl now fetch delErr m).requeueAfter) := by
  refine ⟨calculateRequeueTime_nonneg ttl now pod, ?_, ?_, ?_⟩
  · intro h
    simp [calculateRequeueTime, h]
  · intro t h
    constructor
    · intro hge
      simp [calculateRequeueTime, h, hge]
    · intro hlt
      exact calculateRequeueTime_some_le ttl now t pod h (le_of_lt hlt)
  · intro fetch delErr m
    cases fetch with
    | notFound => simp [Reconcile]
    | err e => simp [Reconcile]
    | ok q =>
      cases h1 : isPodEvicted q with
      | false => simp [Reconcile, h1]
      | true =>
        cases h2 : shouldPreservePod q with
        | true => simp [Reconcile, h1, h2]
        | false =>
          cases h3 : hasExceededTTL ttl now q with
          | false => simpa [Reconcile, h1, h2, h3] using
              calculateRequeueTime_nonneg ttl now q
          | true =>
            cases delErr with
            | none => simp [Reconcile, h1, h2, h3]
            | some e => simp [Reconcile, h1, h2, h3]

/-- C10 (witness): the theorem applied to a concrete pod whose start time is
in the future (`t = 15 s`, `now = 10 s`, TTL `10 s`): the requeue delay is
`T - age = 15 s`. -/
theorem requeue_time_nonneg_witness :
    calculateRequeueTime 10 (10 * nsPerSecond)
        ⟨"default", "p", none,
          ⟨PodPhase.Failed, "Evicted", some (15 * nsPerSecond)⟩⟩ =
      10 * nsPerSecond - (10 * nsPerSecond - 15 * nsPerSecond) :=
  (((requeue_time_nonneg 10 (10 * nsPerSecond)
      ⟨"default", "p", none,
        ⟨PodPhase.Failed, "Evicted", some (15 * nsPerSecond)⟩⟩).2.2.1
    (15 * nsPerSecond) rfl).2 (by decide))

end Reaper
